import Mathlib

/-!
Verification of the load-generation core of the repository
(`src/tests/load/locustfile.py` and `locustfile.py`).

The embedding is shallow: the `WaveShape` load-shape controller's `tick`
method becomes a pure Lean function over a list of stages and a rational
elapsed time; the random draws (`random.random()`, `random.uniform`,
`random.choice`) are modelled by passing the underlying random sample as an
explicit argument; the `try/except: pass` of the chaos "drop" branch becomes
explicit `Except` handling; the status-code predicate of the WS-fallback
action becomes a function from status code to a recorded outcome.
-/

namespace LoadModel

/-- One entry of `WaveShape.stages`: a dict with keys
`duration`, `users`, `spawn_rate`. Elapsed-time boundaries are rationals
(Python floats compared with `<`); user counts and spawn rates are naturals. -/
structure Stage where
  duration : ℚ
  users : ℕ
  spawn_rate : ℕ
  deriving DecidableEq, Repr

/-- `WaveShape.tick`, with `self.get_run_time()` passed in as `run_time`:
scan `stages` in order; on the first stage with `run_time < stage["duration"]`
return `(stage["users"], stage["spawn_rate"])`; after the loop return `None`. -/
def tick : List Stage → ℚ → Option (ℕ × ℕ)
  | [], _ => none
  | stage :: rest, run_time =>
      if run_time < stage.duration then some (stage.users, stage.spawn_rate)
      else tick rest run_time

/-- The configured `WaveShape.stages` list from the source. -/
def waveStages : List Stage :=
  [ ⟨60, 100, 10⟩
  , ⟨120, 500, 20⟩
  , ⟨180, 1000, 50⟩
  , ⟨240, 2000, 100⟩
  , ⟨300, 500, 50⟩ ]

/-- The three-stage list used by the spec's worked example. -/
def exampleStages : List Stage :=
  [⟨60, 100, 10⟩, ⟨120, 500, 20⟩, ⟨180, 1000, 50⟩]

/-- Restatement of the spec's algorithm in its own words: return the
`(users, spawn_rate)` of the first stage whose duration boundary is strictly
greater than `elapsed`, `none` if there is no such stage. Used to compare
the source's loop against the spec's description. -/
def tickSpec (stages : List Stage) (elapsed : ℚ) : Option (ℕ × ℕ) :=
  (stages.find? (fun s => decide (elapsed < s.duration))).map
    (fun s => (s.users, s.spawn_rate))

/-- Outcome recorded for a `catch_response` block: `response.success()` or
`response.failure(msg)`. -/
inductive Outcome where
  | success : Outcome
  | failure : String → Outcome
  deriving DecidableEq, Repr

/-- The status-code check of `VibeZUser.websocket_fallback_simulation`, with
the response status code passed in: statuses in `[200, 401, 403]` are marked
success, anything else is marked failure with the formatted message. -/
def websocket_fallback_simulation (status : ℕ) : Outcome :=
  if status ∈ ([200, 401, 403] : List ℕ) then Outcome.success
  else Outcome.failure ("Unexpected status: " ++ toString status)

/-- Ways the near-zero-timeout request of the chaos "drop" branch can fail. -/
inductive ReqError where
  | timeout : ReqError
  | connectionError : ReqError
  | other : String → ReqError
  deriving DecidableEq, Repr

/-- The "drop" branch of `VibeZUser.chaos_monkey`, with the outcome of
`self.client.get("/api/health", timeout=0.001, ...)` passed in: the body is a
`try` whose bare `except: pass` swallows every exception, so the branch
returns normally whatever the request did. -/
def chaosDropBranch (req : Except ReqError ℕ) : Except ReqError Unit :=
  match req with
  | Except.ok _ => Except.ok ()
  | Except.error _ => Except.ok ()

/-- Model of `random.uniform(lo, hi)` (also of locust's `between(lo, hi)`
wait-time callable, which draws the same way): the random sample
`r ∈ [0, 1]` is passed explicitly. -/
def uniform (lo hi r : ℚ) : ℚ := lo + r * (hi - lo)

/-- Lower bound of `VibeZUser.wait_time = between(1, 5)`. -/
def wait_time_min : ℚ := 1

/-- Upper bound of `VibeZUser.wait_time = between(1, 5)`. -/
def wait_time_max : ℚ := 5

/-- Lower bound of the chaos latency pause `random.uniform(0.5, 2.0)`. -/
def chaosLatencyMin : ℚ := 1/2

/-- Upper bound of the chaos latency pause `random.uniform(0.5, 2.0)`. -/
def chaosLatencyMax : ℚ := 2

/-- The list `random.choice` draws from in `VibeZUser.chaos_monkey`. -/
def chaosActions : List String := ["latency", "drop", "normal"]

/-- The `WaveShape` object: its only attribute is the `stages` list. -/
structure WaveShape where
  stages : List Stage
  deriving DecidableEq

/-- `tick` as a state-passing method on the `WaveShape` object, returning the
result together with the (unmodified) object: the Python method body reads
`self.stages` and assigns to no attribute. -/
def WaveShape.tickSt (w : WaveShape) (elapsed : ℚ) : Option (ℕ × ℕ) × WaveShape :=
  (tick w.stages elapsed, w)

end LoadModel

namespace LoadModel

/-- C1: `tick` agrees with the first-match-wins description:
it equals the spec's find-first formulation, returns `none` once `elapsed`
reaches every boundary, and on the spec's three-stage example takes the
stated values at 30, 60 and 200. -/
theorem tick_first_match (stages : List Stage) (e : ℚ) (_h : 0 ≤ e) :
    tick stages e = tickSpec stages e
    ∧ ((∀ s ∈ stages, s.duration ≤ e) → tick stages e = none)
    ∧ tick exampleStages 30 = some (100, 10)
    ∧ tick exampleStages 60 = some (500, 20)
    ∧ tick exampleStages 200 = none := by
  refine ⟨?_, ?_, by decide, by decide, by decide⟩
  · induction stages with
    | nil => rfl
    | cons s rest ih =>
        by_cases hs : e < s.duration
        · simp [tick, tickSpec, List.find?, hs]
        · simpa [tick, tickSpec, List.find?, hs] using ih
  · intro hall
    induction stages with
    | nil => rfl
    | cons s rest ih =>
        have h1 : s.duration ≤ e := hall s (List.mem_cons_self s rest)
        simp only [tick, not_lt.mpr h1, if_false]
        exact ih (fun t ht => hall t (List.mem_cons_of_mem s ht))

/-- Concrete instantiation of `tick_first_match` at the example stages and
elapsed 30. -/
theorem tick_first_match_witness :
    (0 : ℚ) ≤ 30
    ∧ (tick exampleStages 30 = tickSpec exampleStages 30
        ∧ ((∀ s ∈ exampleStages, s.duration ≤ 30) → tick exampleStages 30 = none)
        ∧ tick exampleStages 30 = some (100, 10)
        ∧ tick exampleStages 60 = some (500, 20)
        ∧ tick exampleStages 200 = none) :=
  ⟨by norm_num, tick_first_match exampleStages 30 (by norm_num)⟩

/-- C6: on an empty stage list `tick` returns `none` for every elapsed time;
the embedding is a total function, so no exception can arise. -/
theorem tick_empty_stages (elapsed : ℚ) : tick [] elapsed = none := rfl

/-- C7: `tick` is pure: the state-passing method leaves the `WaveShape`
object unchanged, and two successive calls with the same elapsed value
return identical results. -/
theorem tick_idempotent (w : WaveShape) (e : ℚ) :
    (w.tickSt e).1 = (((w.tickSt e).2).tickSt e).1
    ∧ (w.tickSt e).2 = w
    ∧ (((w.tickSt e).2).tickSt e).2 = w := by
  exact ⟨rfl, rfl, rfl⟩

/-- C8: the configured `WaveShape.stages` boundaries are exactly
60, 120, 180, 240, 300 and strictly increase. -/
theorem waveStages_boundaries_increasing :
    waveStages.map Stage.duration = [60, 120, 180, 240, 300]
    ∧ List.Chain' (· < ·) (waveStages.map Stage.duration) := by
  refine ⟨by decide, ?_⟩
  norm_num [waveStages, List.chain'_cons]

/-- C2: the WS-fallback action records success exactly for statuses 200, 401
and 403, records a failure for every other status, and in particular records
the formatted failure for status 500. -/
theorem ws_fallback_status (s : ℕ) :
    (websocket_fallback_simulation s = Outcome.success ↔ s = 200 ∨ s = 401 ∨ s = 403)
    ∧ (¬(s = 200 ∨ s = 401 ∨ s = 403) →
        websocket_fallback_simulation s
          = Outcome.failure ("Unexpected status: " ++ toString s))
    ∧ websocket_fallback_simulation 500
        = Outcome.failure "Unexpected status: 500" := by
  have hm : (s ∈ ([200, 401, 403] : List ℕ)) ↔ (s = 200 ∨ s = 401 ∨ s = 403) := by
    simp
  refine ⟨?_, ?_, by rfl⟩
  · by_cases h : s ∈ ([200, 401, 403] : List ℕ)
    · simp [websocket_fallback_simulation, if_pos h, hm.mp h]
    · simp only [websocket_fallback_simulation, if_neg h]
      constructor
      · intro hc; cases hc
      · intro hc; exact absurd (hm.mpr hc) h
  · intro hns
    have h : s ∉ ([200, 401, 403] : List ℕ) := fun hmem => hns (hm.mp hmem)
    unfold websocket_fallback_simulation
    rw [if_neg h]

/-- Concrete instantiation of `ws_fallback_status` at status 500. -/
theorem ws_fallback_status_witness :
    ¬((500 : ℕ) = 200 ∨ (500 : ℕ) = 401 ∨ (500 : ℕ) = 403)
    ∧ websocket_fallback_simulation 500
        = Outcome.failure ("Unexpected status: " ++ toString (500 : ℕ)) :=
  ⟨by decide, (ws_fallback_status 500).2.1 (by decide)⟩

/-- C3: the chaos "drop" branch completes normally for every possible outcome
of the underlying request (success, timeout, connection error, or any other
exception): the bare `except` swallows everything, so no error reaches the
caller. -/
theorem chaos_drop_never_raises (req : Except ReqError ℕ) :
    chaosDropBranch req = Except.ok () := by
  cases req <;> rfl

/-- C4 counterexample: the chaos latency pause range `[0.5, 2.0]` has width
`3/2`, the think-time range `[1, 5]` has width `4`, and `3/2` does not
strictly exceed `4` — the latency range is not wider than the think-time
range. -/
theorem chaos_latency_width_counterexample :
    chaosLatencyMax - chaosLatencyMin = 3/2
    ∧ wait_time_max - wait_time_min = 4
    ∧ ¬ (chaosLatencyMax - chaosLatencyMin > wait_time_max - wait_time_min) := by
  norm_num [chaosLatencyMin, chaosLatencyMax, wait_time_min, wait_time_max]

/-- C4 (amended): every latency pause drawn lies in `[0.5, 2.0]`, an interval
whose width (`3/2`) is strictly smaller than the width (`4`) of the
think-time interval `[1, 5]`. -/
theorem chaos_latency_range (r : ℚ) (h0 : 0 ≤ r) (h1 : r ≤ 1) :
    chaosLatencyMin ≤ uniform chaosLatencyMin chaosLatencyMax r
    ∧ uniform chaosLatencyMin chaosLatencyMax r ≤ chaosLatencyMax
    ∧ chaosLatencyMax - chaosLatencyMin < wait_time_max - wait_time_min := by
  unfold uniform chaosLatencyMin chaosLatencyMax wait_time_min wait_time_max
  refine ⟨?_, ?_, by norm_num⟩ <;> nlinarith

/-- Concrete instantiation of `chaos_latency_range` at the draw `r = 0`. -/
theorem chaos_latency_range_witness :
    (0 : ℚ) ≤ 0 ∧ (0 : ℚ) ≤ 1
    ∧ (chaosLatencyMin ≤ uniform chaosLatencyMin chaosLatencyMax 0
        ∧ uniform chaosLatencyMin chaosLatencyMax 0 ≤ chaosLatencyMax
        ∧ chaosLatencyMax - chaosLatencyMin < wait_time_max - wait_time_min) :=
  ⟨le_refl 0, by norm_num, chaos_latency_range 0 (le_refl 0) (by norm_num)⟩

/-- C5: a `between(lo, hi)` think-time draw lies within `[lo, hi]` inclusive
and is non-negative whenever `0 ≤ lo ≤ hi`, and in particular the configured
`between(1, 5)` draw lies within `[1, 5]`. -/
theorem thinkTime_in_bounds (lo hi r : ℚ) (hlo : 0 ≤ lo) (hle : lo ≤ hi)
    (hr0 : 0 ≤ r) (hr1 : r ≤ 1) :
    (lo ≤ uniform lo hi r ∧ uniform lo hi r ≤ hi ∧ 0 ≤ uniform lo hi r)
    ∧ (wait_time_min ≤ uniform wait_time_min wait_time_max r
        ∧ uniform wait_time_min wait_time_max r ≤ wait_time_max) := by
  unfold uniform wait_time_min wait_time_max
  refine ⟨⟨?_, ?_, ?_⟩, ?_, ?_⟩ <;> nlinarith

/-- Concrete instantiation of `thinkTime_in_bounds` at `lo = 1`, `hi = 5`,
draw `r = 1/2`. -/
theorem thinkTime_in_bounds_witness :
    (0 : ℚ) ≤ 1 ∧ (1 : ℚ) ≤ 5 ∧ (0 : ℚ) ≤ 1/2 ∧ (1/2 : ℚ) ≤ 1
    ∧ (((1 : ℚ) ≤ uniform 1 5 (1/2) ∧ uniform 1 5 (1/2) ≤ 5
          ∧ (0 : ℚ) ≤ uniform 1 5 (1/2))
        ∧ (wait_time_min ≤ uniform wait_time_min wait_time_max (1/2)
            ∧ uniform wait_time_min wait_time_max (1/2) ≤ wait_time_max)) :=
  ⟨by norm_num, by norm_num, by norm_num, by norm_num,
    thinkTime_in_bounds 1 5 (1/2) (by norm_num) (by norm_num) (by norm_num) (by norm_num)⟩

/-- C9: the chaos sub-branch is drawn from exactly the three labels
"latency", "drop", "normal": the choice list has length 3, every entry is one
of the three labels, the list has no duplicates, and under a uniform
unweighted draw each label has probability 1/3. -/
theorem chaos_branch_uniform :
    chaosActions.length = 3
    ∧ (∀ i : Fin chaosActions.length,
        chaosActions.get i = "latency" ∨ chaosActions.get i = "drop"
          ∨ chaosActions.get i = "normal")
    ∧ chaosActions.Nodup
    ∧ (∀ l ∈ chaosActions,
        (chaosActions.count l : ℚ) / chaosActions.length = 1/3) := by
  refine ⟨rfl, ?_, by decide, ?_⟩
  · intro i; fin_cases i <;> simp [chaosActions]
  · intro l hl
    fin_cases hl <;>
      norm_num [show chaosActions.count "latency" = 1 from by decide,
        show chaosActions.count "drop" = 1 from by decide,
        show chaosActions.count "normal" = 1 from by decide,
        show chaosActions.length = 3 from by decide]

/-- Concrete instantiation of `chaos_branch_uniform` at the label "drop". -/
theorem chaos_branch_uniform_witness :
    "drop" ∈ chaosActions
    ∧ (chaosActions.count "drop" : ℚ) / chaosActions.length = 1/3 :=
  ⟨by decide, chaos_branch_uniform.2.2.2 "drop" (by decide)⟩

/-- C10: with the configured five-stage list, `tick` returns `none` exactly
when elapsed has reached 300 seconds, and returns some `(users, spawn_rate)`
pair for every elapsed strictly below 300. -/
theorem wave_tick_terminal (e : ℚ) :
    (tick waveStages e = none ↔ 300 ≤ e)
    ∧ (e < 300 → ∃ p, tick waveStages e = some p) := by
  have hrepr : tick waveStages e =
      if e < 60 then some (100, 10)
      else if e < 120 then some (500, 20)
      else if e < 180 then some (1000, 50)
      else if e < 240 then some (2000, 100)
      else if e < 300 then some (500, 50)
      else none := by
    simp [waveStages, tick]
  rw [hrepr]
  constructor
  · split_ifs with h1 h2 h3 h4 h5 <;> simp <;> linarith
  · intro hlt
    split_ifs with h1 h2 h3 h4
    · exact ⟨_, rfl⟩
    · exact ⟨_, rfl⟩
    · exact ⟨_, rfl⟩
    · exact ⟨_, rfl⟩
    · exact ⟨_, rfl⟩

/-- Concrete instantiation of `wave_tick_terminal` at elapsed 150. -/
theorem wave_tick_terminal_witness :
    (150 : ℚ) < 300 ∧ ∃ p, tick waveStages (150 : ℚ) = some p :=
  ⟨by norm_num, (wave_tick_terminal 150).2 (by norm_num)⟩

end LoadModel
